import Mathlib

/-!
Verification of the Portfolio-Dashboard eCAS ingestion core.

This file shallowly embeds the Python backend of the repository
(`dedupe_context.py`, `nsdl_parser.py`, `cdsl_parser.py`, `cams_parser.py`,
`ecasparser.py`) into Lean 4 and proves or refutes the frozen claims about
it.  Python floats are modelled as exact fractions (`PyFloat`, an integer
numerator over a positive natural denominator, compared by value); Python
`dict` rows become structures with `Option` fields where a key may be
absent; Python `round` is modelled as round-half-to-even on exact
fractions.  All definitions are kernel-computable so concrete runs are
settled by `decide`.
-/

/-! ## Exact-fraction model of Python floats -/

/-- An exact fraction `num / den` standing for a Python float value.
Not normalised; two fractions denote the same float value iff they are
cross-multiplication equal (`PyFloat.beq`). -/
structure PyFloat where
  num : ℤ
  den : ℕ+
deriving DecidableEq

instance : OfNat PyFloat n := ⟨⟨n, 1⟩⟩

/-- Value equality of two fractions (Python `==` on floats). -/
def PyFloat.beq (a b : PyFloat) : Bool := a.num * b.den = b.num * a.den

/-- Value order on fractions (Python `<` on floats). -/
def PyFloat.lt (a b : PyFloat) : Bool := a.num * b.den < b.num * a.den

/-- Python float multiplication, exactly. -/
def PyFloat.mul (a b : PyFloat) : PyFloat := ⟨a.num * b.num, a.den * b.den⟩

/-- Python float subtraction, exactly. -/
def PyFloat.sub (a b : PyFloat) : PyFloat :=
  ⟨a.num * b.den - b.num * a.den, a.den * b.den⟩

/-- Python `abs` on floats. -/
def PyFloat.abs (a : PyFloat) : PyFloat := ⟨|a.num|, a.den⟩

/-- Mathematical floor of the fraction. -/
def PyFloat.floor (q : PyFloat) : ℤ := q.num.fdiv q.den

/-- The decimal literal `n / 10^k`, e.g. `pyDec 105 1` is `10.5`. -/
def pyDec (n : ℤ) (k : ℕ) : PyFloat := ⟨n, ⟨10 ^ k, by positivity⟩⟩

/-- Round a fraction to the nearest integer, ties to even — the
tie-breaking behaviour of Python's `round`. -/
def roundHalfEvenZ (q : PyFloat) : ℤ :=
  let f := q.floor
  let twice : ℤ := 2 * (q.num - f * q.den)
  if twice < (q.den : ℕ) then f
  else if ((q.den : ℕ) : ℤ) < twice then f + 1
  else if f % 2 = 0 then f else f + 1

/-- Python `round(q, n)` on the exact-fraction model. -/
def pyRound (q : PyFloat) (n : ℕ) : PyFloat :=
  ⟨roundHalfEvenZ (q.mul ⟨(10 : ℤ) ^ n, 1⟩), ⟨10 ^ n, by positivity⟩⟩

example : (pyRound (pyDec 25 1) 0).beq 2 = true := by decide
example : (pyRound (pyDec 35 1) 0).beq 4 = true := by decide
example : (pyRound (PyFloat.mul 100 (pyDec 105 1)) 2).beq (pyDec 105000 2) = true := by
  decide

/-! ## String helpers mirroring the Python string operations used -/

/-- Check that `pat` occurs as a contiguous run inside `l`. -/
def listContainsRun (pat : List Char) : List Char → Bool
  | [] => pat.isEmpty
  | c :: rest => pat.isPrefixOf (c :: rest) || listContainsRun pat rest

/-- Python `pat in s` for strings. -/
def containsSub (s pat : String) : Bool :=
  listContainsRun pat.data s.data

/-- Helper for `collapseWs`: the flag records whether the previous
character was whitespace. -/
def collapseWsChars : Bool → List Char → List Char
  | _, [] => []
  | inRun, c :: rest =>
    if c.isWhitespace then
      if inRun then collapseWsChars true rest
      else ' ' :: collapseWsChars true rest
    else c :: collapseWsChars false rest

/-- `re.sub(r"\s+", " ", s)`: collapse whitespace runs to single spaces. -/
def collapseWs (s : String) : String :=
  ⟨collapseWsChars false s.data⟩

/-- Map the unicode dashes `–`, `—`, `−` to `-`,
mirroring `re.sub(r"[–—−]", "-", s)`. -/
def normalizeDashes (s : String) : String :=
  ⟨s.data.map (fun c => if c = '–' || c = '—' || c = '−' then '-' else c)⟩

/-- Python `s.strip()`. -/
def pyStrip (s : String) : String :=
  ⟨((s.data.dropWhile Char.isWhitespace).reverse.dropWhile
      Char.isWhitespace).reverse⟩

/-- Python `s.upper()` (ASCII). -/
def pyUpper (s : String) : String := ⟨s.data.map Char.toUpper⟩

/-- Python `s.lower()` (ASCII). -/
def pyLower (s : String) : String := ⟨s.data.map Char.toLower⟩

/-- Python truthiness of an optional string: `None` and `""` are falsy. -/
def strFalsy : Option String → Bool
  | none => true
  | some s => s = ""

/-- Helper for `pyWords`: accumulate the current word in reverse. -/
def pyWordsAux (cur : List Char) : List Char → List String
  | [] => if cur.isEmpty then [] else [⟨cur.reverse⟩]
  | c :: rest =>
    if c.isWhitespace then
      if cur.isEmpty then pyWordsAux [] rest
      else ⟨cur.reverse⟩ :: pyWordsAux [] rest
    else pyWordsAux (c :: cur) rest

/-- Python `s.split()`: whitespace-separated words, empty runs dropped. -/
def pyWords (s : String) : List String := pyWordsAux [] s.data

/-! ## Dedup Engine (`dedupe_context.py`) -/

/-- A holding as seen by the dedup engine: a Python dict whose keys may be
absent (`h.get(...)` returns `None`). -/
structure DHolding where
  isin_no : Option String := none
  units : Option PyFloat := none
  valuation : Option PyFloat := none
  fund_name : Option String := none
  type_ : Option String := none
  source_file : Option String := none
deriving DecidableEq

/-- `normalize_isin` from `dedupe_context.py`: `(isin or "").strip().upper()`. -/
def normalize_isin (isin : Option String) : String :=
  pyUpper (pyStrip (isin.getD ""))

/-- A dedup signature: either ISIN-based or name-based (non-ISIN
instruments such as NPS). -/
inductive DKey where
  | isinKey (isin : String) (units valuation : PyFloat)
  | nameKey (htype fund : String) (units valuation : PyFloat)
deriving DecidableEq

/-- Value equality of dedup signatures: Python tuple equality, comparing
the float components by value. -/
def DKey.keyBeq : DKey → DKey → Bool
  | .isinKey i u v, .isinKey i' u' v' => i = i' && u.beq u' && v.beq v'
  | .nameKey t f u v, .nameKey t' f' u' v' =>
    t = t' && f = f' && u.beq u' && v.beq v'
  | _, _ => false

/-- `holding_key` from `dedupe_context.py`. -/
def holding_key (h : DHolding) : Option DKey :=
  let isin := normalize_isin h.isin_no
  let units := pyRound (h.units.getD 0) 6
  let valuation := pyRound (h.valuation.getD 0) 2
  if isin ≠ "" then
    some (.isinKey isin units valuation)
  else
    let fund_name := pyUpper (pyStrip (h.fund_name.getD ""))
    let htype := pyUpper (pyStrip (h.type_.getD ""))
    if fund_name = "" ∨ htype = "" then
      none
    else
      let fund_name := normalizeDashes (collapseWs fund_name)
      some (.nameKey htype fund_name units valuation)

/-- The module-level `_seen : dict[tuple, set[str]]`, as an association
list from signature to the recorded set of source files. -/
def DedupState := List (DKey × List String)

/-- `_seen.get(key, set())`. -/
def seenGet (st : DedupState) (k : DKey) : List String :=
  match st.find? (fun p => p.1.keyBeq k) with
  | some p => p.2
  | none => []

/-- `_seen[key].add(source)` (with `defaultdict` insertion on miss). -/
def seenAdd (st : DedupState) (k : DKey) (s : String) : DedupState :=
  match st with
  | [] => [(k, [s])]
  | (k', ss) :: rest =>
    if k'.keyBeq k then (k', if ss.contains s then ss else ss ++ [s]) :: rest
    else (k', ss) :: seenAdd rest k s

/-- `reset_dedup_context` from `dedupe_context.py`: `_seen.clear()`. -/
def reset_dedup_context : DedupState := []

/-- `is_duplicate` from `dedupe_context.py`: a holding is a duplicate only
when its signature was already seen from a *different* source file. -/
def is_duplicate (st : DedupState) (h : DHolding) : Bool :=
  match holding_key h, h.source_file with
  | some key, some source =>
    if source = "" then false
    else
      let seen_sources := seenGet st key
      !seen_sources.isEmpty && !seen_sources.contains source
  | _, _ => false

/-- `mark_seen` from `dedupe_context.py`. -/
def mark_seen (st : DedupState) (h : DHolding) : DedupState :=
  match holding_key h, h.source_file with
  | some key, some source =>
    if source = "" then st else seenAdd st key source
  | _, _ => st

/-- A sample ISIN-carrying holding from file `A.pdf`, used in tests. -/
def sampleHoldingA : DHolding :=
  { isin_no := some "INE000A01010", units := some 10,
    valuation := some 100, source_file := some "A.pdf" }

/-- The same position reported from file `B.pdf`. -/
def sampleHoldingB : DHolding :=
  { sampleHoldingA with source_file := some "B.pdf" }

example : is_duplicate [] sampleHoldingA = false := by decide
example : is_duplicate (mark_seen [] sampleHoldingA) sampleHoldingB = true := by decide
example : is_duplicate (mark_seen [] sampleHoldingA) sampleHoldingA = false := by decide

/-! ## NSDL parser (`nsdl_parser.py`) -/

/-- Python float addition, exactly. -/
def PyFloat.add (a b : PyFloat) : PyFloat :=
  ⟨a.num * b.den + b.num * a.den, a.den * b.den⟩

/-- One boilerplate marker of `clean_fund_name`'s split regex
`(\s*#|\s+O[Ff]\s+|\s+0[Ff]\s+)` matches at the head of `s`. -/
def boilerMarkerAt (s : List Char) : Bool :=
  let t := s.dropWhile Char.isWhitespace
  (t.head? = some '#') ||
  (match s with
   | [] => false
   | c :: _ =>
     c.isWhitespace &&
     (match t with
      | c1 :: c2 :: rest =>
        (c1 = 'O' || c1 = 'o' || c1 = '0') && (c2 = 'F' || c2 = 'f') &&
        ((rest.head?.map Char.isWhitespace).getD false)
      | _ => false))

/-- Prefix of the characters before the first boilerplate marker,
mirroring `re.split(r"(\s*#|\s+O[Ff]\s+|\s+0[Ff]\s+)", name)[0]`. -/
def splitBoiler : List Char → List Char
  | [] => []
  | c :: rest =>
    if boilerMarkerAt (c :: rest) then [] else c :: splitBoiler rest

/-- `clean_fund_name` from `nsdl_parser.py`. -/
def clean_fund_name (name : String) (htype : String) : String :=
  if name = "" then name
  else if pyLower htype = "govt security" ||
      containsSub (pyLower name) "govt" ||
      containsSub (pyLower name) "government" then
    ⟨(collapseWs (pyStrip name)).data.take 255⟩
  else
    let n := pyStrip (collapseWs name)
    let n := splitBoiler n.data
    let n := (n.reverse.dropWhile
      (fun c => c = '-' || c = ',' || c = '/' || c = ':' || c.isWhitespace)).reverse
    ⟨(pyStrip ⟨n⟩).data.take 255⟩

/-- A holding dict as built by `parse_nsdl_ecas_text`: every key present,
but note there is no `source_file` key. -/
structure NsdlRow where
  type_ : String
  isin_no : String
  fund_name : String
  units : PyFloat
  nav : PyFloat
  invested_amount : PyFloat
  valuation : PyFloat
  category : String
  sub_category : String
deriving DecidableEq

/-- View an NSDL row as the dict handed to the dedup engine; the parser
never sets `source_file`, so `h.get("source_file")` is `None`. -/
def NsdlRow.toDedup (r : NsdlRow) : DHolding :=
  { isin_no := some r.isin_no, units := some r.units,
    valuation := some r.valuation, fund_name := some r.fund_name,
    type_ := some r.type_, source_file := none }

/-- The skip condition of the `valid_holdings` loop in
`parse_nsdl_ecas_text`:
`isin and isin == 'INFRASTRUCTURE' and len(isin) < 10`. -/
def nsdlRowFilterCond (r : NsdlRow) : Bool :=
  let isin := pyStrip r.isin_no
  isin ≠ "" && isin = "INFRASTRUCTURE" && isin.length < 10

/-- The valuation backfill of the `valid_holdings` loop:
`if h["valuation"] == 0 and h["units"] > 0 and h["nav"] > 0:
h["valuation"] = round(h["units"] * h["nav"], 2)`. -/
def nsdlBackfill (r : NsdlRow) : NsdlRow :=
  if r.valuation.beq 0 && PyFloat.lt 0 r.units && PyFloat.lt 0 r.nav then
    { r with valuation := pyRound (r.units.mul r.nav) 2 }
  else r

/-- The `valid_holdings` post-processing of `parse_nsdl_ecas_text`
applied to the rows produced by the pattern-matching phase. -/
def nsdl_valid_holdings (hs : List NsdlRow) : List NsdlRow :=
  hs.filterMap (fun h =>
    if nsdlRowFilterCond h then none else some (nsdlBackfill h))

/-- The `total_value` returned by `parse_nsdl_ecas_text` when the pattern
phase extracted rows `hs`: every appended row adds its parsed valuation
except NPS rows, whose loop has no `total_value +=` line. -/
def nsdl_parse_total (hs : List NsdlRow) : PyFloat :=
  (hs.filter (fun h => h.type_ ≠ "NPS")).foldl
    (fun acc h => acc.add h.valuation) 0

/-- Python `s.split("_")[0]`: the characters before the first `_`. -/
def baseIsin (s : String) : String := ⟨s.data.takeWhile (fun c => c ≠ '_')⟩

/-- The mutual-fund suppression of `process_nsdl_file`: drop plain
`Mutual Fund` rows whose base ISIN was already captured as a folio. -/
def folioSuppress (hs : List NsdlRow) : List NsdlRow :=
  let folio_isins :=
    (hs.filter (fun h => h.type_ = "Mutual Fund Folio")).map
      (fun h => baseIsin h.isin_no)
  hs.filter (fun h =>
    !(h.type_ = "Mutual Fund" && folio_isins.contains (baseIsin h.isin_no)))

/-- Value equality of the exact-equity-dupe keys
`(isin, round(units, 4), round(valuation, 2))`. -/
def eqKey3Beq (a b : String × PyFloat × PyFloat) : Bool :=
  a.1 = b.1 && a.2.1.beq b.2.1 && a.2.2.beq b.2.2

/-- The exact-duplicate-equity collapse of `process_nsdl_file`. -/
def nsdlEquityDedup (seen : List (String × PyFloat × PyFloat)) :
    List NsdlRow → List NsdlRow
  | [] => []
  | h :: rest =>
    if h.type_ = "Shares" then
      let key := (h.isin_no, pyRound h.units 4, pyRound h.valuation 2)
      if seen.any (eqKey3Beq key) then nsdlEquityDedup seen rest
      else h :: nsdlEquityDedup (key :: seen) rest
    else h :: nsdlEquityDedup seen rest

/-- The `holdings` list that `process_nsdl_file` returns (and iterates
over for insertion): parse post-processing, folio suppression, then the
equity collapse. -/
def nsdl_process_holdings (rows : List NsdlRow) : List NsdlRow :=
  nsdlEquityDedup [] (folioSuppress (nsdl_valid_holdings rows))

/-- Value equality of the non-ISIN composite keys of `process_nsdl_file`:
`(htype, fund_name, round(units, 6), round(nav, 6), round(valuation, 2))`. -/
def compKeyBeq (a b : String × String × PyFloat × PyFloat × PyFloat) : Bool :=
  a.1 = b.1 && a.2.1 = b.2.1 && a.2.2.1.beq b.2.2.1 &&
  a.2.2.2.1.beq b.2.2.2.1 && a.2.2.2.2.beq b.2.2.2.2

/-- The mutable state threaded through the insertion loop of
`process_nsdl_file`. -/
structure NsdlLoopState where
  st : DedupState
  seen_isins : List String
  seen_comps : List (String × String × PyFloat × PyFloat × PyFloat)
  inserted : List NsdlRow
  duplicates : List NsdlRow

/-- One iteration of the insertion loop of `process_nsdl_file`
(lines 439-542): quarantine duplicates, skip invalid ISINs, the
ISIN/composite in-batch dedupe, then insert and `mark_seen`. -/
def nsdlInsertStep (allHs : List NsdlRow) (s : NsdlLoopState) (h : NsdlRow) :
    NsdlLoopState :=
  if is_duplicate s.st h.toDedup then
    { s with duplicates := s.duplicates ++ [{ h with isin_no := pyStrip h.isin_no }] }
  else
    let isin := pyStrip h.isin_no
    let htype := h.type_
    let fund_name := clean_fund_name h.fund_name htype
    let inserted_row : NsdlRow :=
      { h with isin_no := isin, fund_name := ⟨fund_name.data.take 255⟩ }
    let doInsert : NsdlLoopState → NsdlLoopState := fun s' =>
      { s' with inserted := s'.inserted ++ [inserted_row],
                st := mark_seen s'.st h.toDedup }
    if isin = "" && htype ≠ "NPS" then s
    else if isin ≠ "" &&
        (decide (isin.length < 10) || containsSub (pyUpper isin) "INFRASTRUCTURE") then s
    else if isin ≠ "" then
      let existing_entry := allHs.find? (fun x => x.isin_no = isin)
      if s.seen_isins.contains isin then
        if htype = "Shares" then
          match existing_entry with
          | some x =>
            if !(x.valuation.beq 0) &&
                PyFloat.lt 1 ((x.valuation.sub h.valuation).abs) then
              doInsert { s with seen_isins := s.seen_isins ++ [isin] }
            else s
          | none => s
        else s
      else doInsert { s with seen_isins := s.seen_isins ++ [isin] }
    else
      let key := (htype, fund_name, pyRound h.units 6, pyRound h.nav 6,
        pyRound h.valuation 2)
      if s.seen_comps.any (compKeyBeq key) then s
      else doInsert { s with seen_comps := s.seen_comps ++ [key] }

/-- The full insertion loop of `process_nsdl_file` over the final holdings
list, starting from dedup state `st`. -/
def nsdlInsertLoop (st : DedupState) (rows : List NsdlRow) : NsdlLoopState :=
  let holdings := nsdl_process_holdings rows
  holdings.foldl (nsdlInsertStep holdings)
    ⟨st, [], [], [], []⟩

example :
    nsdl_valid_holdings
      [{ type_ := "Mutual Fund", isin_no := "INFRASTRUCTURE",
         fund_name := "X FUND", units := 100, nav := pyDec 105 1,
         invested_amount := 0, valuation := 1000, category := "Equity",
         sub_category := "Flexi Cap" }] =
      [{ type_ := "Mutual Fund", isin_no := "INFRASTRUCTURE",
         fund_name := "X FUND", units := 100, nav := pyDec 105 1,
         invested_amount := 0, valuation := 1000, category := "Equity",
         sub_category := "Flexi Cap" }] := by decide

/-! ## CDSL parser (`cdsl_parser.py`) -/

/-- A holding dict as built by `parse_cdsl_ecas_text` (and, with the same
shape, by `parse_ecas_text` of `ecasparser.py`). -/
structure CdslRow where
  type_ : String
  isin_no : String
  fund_name : String
  units : PyFloat
  nav : PyFloat
  invested_amount : PyFloat
  valuation : PyFloat
  category : String
  sub_category : String
deriving DecidableEq

/-- The nav/value fix of the CDSL equity branch (and the identical code in
`parse_ecas_text`): swap when `nav_f > value_f`, then backfill
`value_f = units_f * nav_f` when value is falsy and units and nav are
truthy.  Returns the final `(nav_f, value_f)` pair. -/
def cdsl_equity_fix (units nav value : PyFloat) : PyFloat × PyFloat :=
  let p := if PyFloat.lt value nav then (value, nav) else (nav, value)
  let nav1 := p.1
  let value1 := p.2
  let value2 :=
    if value1.beq 0 && !(units.beq 0) && !(nav1.beq 0) then units.mul nav1
    else value1
  (nav1, value2)

/-- `total_value` as recomputed at the end of `parse_cdsl_ecas_text`
(line 325): the sum of the parsed valuations of every holding. -/
def cdsl_parse_total (hs : List CdslRow) : PyFloat :=
  hs.foldl (fun acc h => acc.add h.valuation) 0

/-- `total_value` as computed at the end of `parse_ecas_text`
(`ecasparser.py` line 302): the valuations of holdings whose `type` equals
`"Equity"` — although the parser only ever emits `"Mutual Fund"` and
`"Shares"` rows. -/
def ecas_parse_total (hs : List CdslRow) : PyFloat :=
  (hs.filter (fun h => h.type_ = "Equity")).foldl
    (fun acc h => acc.add h.valuation) 0

/-- The dict handed to the dedup engine by `process_cdsl_file`, which sets
`h["source_file"] = source` before the duplicate check. -/
def CdslRow.toDedup (r : CdslRow) (source : String) : DHolding :=
  { isin_no := some r.isin_no, units := some r.units,
    valuation := some r.valuation, fund_name := some r.fund_name,
    type_ := some r.type_, source_file := some source }

/-- State of the insertion loop of `process_cdsl_file`. -/
structure CdslLoopState where
  st : DedupState
  inserted : List CdslRow
  duplicates : List CdslRow

/-- One iteration of the insertion loop of `process_cdsl_file`:
quarantine cross-file duplicates, insert everything else and `mark_seen`. -/
def cdslInsertStep (source : String) (s : CdslLoopState) (h : CdslRow) :
    CdslLoopState :=
  let hd := h.toDedup source
  if is_duplicate s.st hd then { s with duplicates := s.duplicates ++ [h] }
  else { s with inserted := s.inserted ++ [h], st := mark_seen s.st hd }

/-- The insertion loop of `process_cdsl_file` over one uploaded file
(one batch in this backend: each upload request processes one file),
starting from the dedup state left by earlier processing.  The module
state `_seen` is only reset by `reset_dedup_context`, which no caller in
the repository ever invokes. -/
def process_cdsl_batch (st : DedupState) (source : String)
    (rows : List CdslRow) : CdslLoopState :=
  rows.foldl (cdslInsertStep source) ⟨st, [], []⟩

/-! ## CAMS parser (`cams_parser.py`) -/

/-- One line of a CAMS left block after the folio line, as the loop of
`parse_cams_two_column` classifies it: `num v` stands for a line matching
`re.match(r"[\d,]+\.\d+", l)` with parsed value `v`, `txt s` for any
other line. -/
inductive CamsLine where
  | num (v : PyFloat)
  | txt (s : String)
deriving DecidableEq

/-- The left-block scan of `parse_cams_two_column`: numeric-looking lines
overwrite `market_value`, the rest accumulate as scheme-name parts. -/
def cams_left_scan : Option PyFloat → List String → List CamsLine →
    Option PyFloat × List String
  | mv, parts, [] => (mv, parts.reverse)
  | _, parts, .num v :: rest => cams_left_scan (some v) parts rest
  | mv, parts, .txt s :: rest => cams_left_scan mv (s :: parts) rest

/-- `market_value` after the left-block scan. -/
def cams_market_value (lines : List CamsLine) : Option PyFloat :=
  (cams_left_scan none [] lines).1

/-! ## Instrument classifier (`cdsl_parser.py`, `classify_instrument`) -/

/-- `any(k in name for k in keys)`. -/
def anyKeyIn (name : String) (keys : List String) : Bool :=
  keys.any (fun k => containsSub name k)

/-- The ordered hybrid-fund patterns of `classify_instrument`. -/
def hybridPatterns : List (List String × String) :=
  [(["arbitrage"], "Arbitrage"),
   (["equity savings"], "Equity Savings"),
   (["conservative hybrid"], "Conservative Hybrid"),
   (["aggressive hybrid"], "Aggressive Hybrid"),
   (["balanced advantage", "dynamic asset"], "Balanced Advantage"),
   (["multi asset"], "Multi Asset Allocation"),
   (["hybrid"], "Aggressive Hybrid")]

/-- The ordered sectoral/thematic keyword table of `classify_instrument`
(Python dicts iterate in insertion order). -/
def sectoralKeywords : List (String × List String) :=
  [("Banking & Financial Services", ["bank", "financial", "bfsi", "psu bank"]),
   ("Infrastructure", ["infra", "infrastructure"]),
   ("Technology", ["technology", "tech", "it", "software"]),
   ("Pharma & Healthcare", ["pharma", "pharmaceutical", "healthcare", "health"]),
   ("Consumption", ["consumption", "consumer", "fmcg"]),
   ("Auto & Auto Ancillaries", ["auto", "automobile"]),
   ("Energy", ["energy", "power", "oil & gas"]),
   ("Manufacturing", ["manufacturing", "capital goods"]),
   ("Metals & Mining", ["metal", "mining"]),
   ("Media & Entertainment", ["media", "entertainment"]),
   ("Chemicals", ["chemical", "specialty chemical"]),
   ("Real Estate", ["realty", "real estate"]),
   ("Transportation & Logistics", ["transport", "logistics"]),
   ("Defence", ["defence", "defense"]),
   ("ESG", ["esg", "responsible", "sustainable", "sustainability"])]

/-- The ordered debt-fund patterns of `classify_instrument`. -/
def debtPatterns : List (List String × String) :=
  [(["overnight"], "Overnight"),
   (["liquid"], "Liquid"),
   (["money market"], "Money Market"),
   (["ultra short", "ultrashort"], "Ultra Short Duration"),
   (["low duration"], "Low Duration"),
   (["short term", "short duration"], "Short Duration"),
   (["medium duration", "medium term"], "Medium Duration"),
   (["medium to long", "long term", "long duration"], "Medium to Long Duration"),
   (["gilt", "government security"], "Gilt"),
   (["dynamic bond"], "Dynamic Bond"),
   (["corporate bond"], "Corporate Bond"),
   (["credit risk", "credit opportunities"], "Credit Risk"),
   (["banking & psu", "psu bond"], "Banking & PSU"),
   (["floater", "floating rate"], "Floating Rate"),
   (["debt", "income", "bond"], "Medium Duration")]

/-- The ordered international-fund patterns of `classify_instrument`. -/
def internationalPatterns : List (List String × String) :=
  [(["us", "usa", "america", "s&p", "nasdaq"], "US Focused"),
   (["global", "world", "international"], "Global"),
   (["asia", "china", "japan", "emerging"], "Asia/EM"),
   (["europe", "euro", "germany", "uk"], "Europe")]

/-- First pattern of an ordered `(keywords, subcat)` table whose keyword
set hits the name. -/
def firstPattern (name : String) : List (List String × String) →
    Option String
  | [] => none
  | (keys, subcat) :: rest =>
    if anyKeyIn name keys then some subcat else firstPattern name rest

/-- First sector of the sectoral table whose keyword set hits the name. -/
def firstSector (name : String) : List (String × List String) →
    Option String
  | [] => none
  | (sector, keys) :: rest =>
    if anyKeyIn name keys then some sector else firstSector name rest

/-- The word-level fallback sets of `classify_instrument`. -/
def equityIndicators : List String :=
  ["growth", "cap", "equity", "mid", "small", "large", "sector"]

/-- The word-level debt indicator set of `classify_instrument`. -/
def debtIndicators : List String :=
  ["income", "bond", "gilt", "duration", "credit", "corporate"]

/-- The ordered SEBI-style rule chain of `classify_instrument` from
`cdsl_parser.py`, applied to the already lower-cased, stripped name. -/
def classifyChain (name : String) : String × String :=
    if anyKeyIn name ["retirement", "pension"] then
      ("Solution Oriented", "Retirement")
    else if anyKeyIn name ["children", "child plan", "education"] then
      ("Solution Oriented", "Children's")
    else if containsSub name "gold" then ("Commodity", "Gold")
    else if containsSub name "silver" then ("Commodity", "Silver")
    else if anyKeyIn name ["reit", "invit", "real estate", "realty"] then
      ("Alternative", "REIT / InvIT")
    else if containsSub name "commodity" then ("Commodity", "Other Commodity")
    else
      match firstPattern name hybridPatterns with
      | some subcat => ("Hybrid", subcat)
      | none =>
        if anyKeyIn name ["elss", "tax saver", "tax savings", "80c"] then
          ("Equity", "ELSS")
        else if containsSub name "small cap" then ("Equity", "Small Cap")
        else if containsSub name "mid cap" then ("Equity", "Mid Cap")
        else if containsSub name "large cap" || containsSub name "bluechip" then
          ("Equity", "Large Cap")
        else if containsSub name "large & mid cap" ||
            containsSub name "large and mid" then
          ("Equity", "Large & Mid Cap")
        else if anyKeyIn name ["flexi cap", "flexicap"] then
          ("Equity", "Flexi Cap")
        else if anyKeyIn name ["multi cap", "multicap"] then
          ("Equity", "Multi Cap")
        else if containsSub name "focused" then ("Equity", "Focused")
        else if containsSub name "contra" then ("Equity", "Contra")
        else if containsSub name "value" then ("Equity", "Value")
        else if containsSub name "dividend yield" then
          ("Equity", "Dividend Yield")
        else
          match firstSector name sectoralKeywords with
          | some sector => ("Equity", "Sectoral - " ++ sector)
          | none =>
            if anyKeyIn name ["index", "nifty", "sensex", "bse"] then
              ("Equity", "Index")
            else if containsSub name "equity" then ("Equity", "Diversified")
            else
              match firstPattern name debtPatterns with
              | some subcat => ("Debt", subcat)
              | none =>
                if anyKeyIn name ["fund of funds", "fof"] then
                  if anyKeyIn name ["international", "global", "overseas"] then
                    ("Fund of Funds", "International FoF")
                  else ("Fund of Funds", "Domestic FoF")
                else
                  match firstPattern name internationalPatterns with
                  | some subcat => ("International", subcat)
                  | none =>
                    let words := pyWords name
                    if words.any (fun w => equityIndicators.contains w) then
                      ("Equity", "Diversified")
                    else if words.any (fun w => debtIndicators.contains w) then
                      ("Debt", "Medium Duration")
                    else if anyKeyIn name
                        ["equity shares", "share", "stock", "etf"] then
                      ("Equity", "Individual Stock")
                    else ("Unclassified", "Unknown")

/-- `classify_instrument` from `cdsl_parser.py` (also used by the CAMS
parser): guard the empty name, then run the ordered rule chain on
`fund_name.lower().strip()`. -/
def classify_instrument (fund_name : String) : String × String :=
  if fund_name = "" then ("Unclassified", "Unknown")
  else classifyChain (pyStrip (pyLower fund_name))

/-- The disjunction of every rule guard of the ordered chain, on an
already lower-cased, stripped name. -/
def someRuleMatchesChain (name : String) : Bool :=
  anyKeyIn name ["retirement", "pension"] ||
  anyKeyIn name ["children", "child plan", "education"] ||
  containsSub name "gold" || containsSub name "silver" ||
  anyKeyIn name ["reit", "invit", "real estate", "realty"] ||
  containsSub name "commodity" ||
  (firstPattern name hybridPatterns).isSome ||
  anyKeyIn name ["elss", "tax saver", "tax savings", "80c"] ||
  containsSub name "small cap" || containsSub name "mid cap" ||
  containsSub name "large cap" || containsSub name "bluechip" ||
  containsSub name "large & mid cap" || containsSub name "large and mid" ||
  anyKeyIn name ["flexi cap", "flexicap"] ||
  anyKeyIn name ["multi cap", "multicap"] ||
  containsSub name "focused" || containsSub name "contra" ||
  containsSub name "value" || containsSub name "dividend yield" ||
  (firstSector name sectoralKeywords).isSome ||
  anyKeyIn name ["index", "nifty", "sensex", "bse"] ||
  containsSub name "equity" ||
  (firstPattern name debtPatterns).isSome ||
  anyKeyIn name ["fund of funds", "fof"] ||
  (firstPattern name internationalPatterns).isSome ||
  (pyWords name).any (fun w => equityIndicators.contains w) ||
  (pyWords name).any (fun w => debtIndicators.contains w) ||
  anyKeyIn name ["equity shares", "share", "stock", "etf"]

/-- Whether some rule guard of `classify_instrument`'s ordered chain
matches the name. -/
def someRuleMatches (fund_name : String) : Bool :=
  someRuleMatchesChain (pyStrip (pyLower fund_name))

example : classify_instrument "SBI Small Cap Fund" = ("Equity", "Small Cap") := by
  decide
example : classify_instrument "HDFC Flexi Cap Fund" = ("Equity", "Flexi Cap") := by
  decide
example : classify_instrument "zzz qqq" = ("Unclassified", "Unknown") := by decide

/-! ## CAMS pair assembly (`parse_cams_two_column`, lines 75-122) -/

/-- A holding dict as built by `parse_cams_two_column`; no `source_file`
key is ever set. -/
structure CamsRow where
  type_ : String
  fund_name : String
  isin_no : String
  folio_no : String
  units : PyFloat
  nav : PyFloat
  invested_amount : PyFloat
  valuation : PyFloat
  category : String
  sub_category : String
deriving DecidableEq

/-- Assemble one holding from a matched left/right block pair of
`parse_cams_two_column`: `leftLines` are the left block's lines after the
folio line, `rightNums` the decimal tokens found in the right block, and
`isin` the result of the `INF…` search there.  Mirrors lines 75-122 of
`cams_parser.py`, including `valuation = market_value if market_value
else round(units * nav, 2)`. -/
def parse_cams_pair (folio : String) (leftLines : List CamsLine)
    (rightNums : List PyFloat) (isin : Option String) : Option CamsRow :=
  let scan := cams_left_scan none [] leftLines
  let market_value := scan.1
  let scheme := pyStrip (collapseWs (String.intercalate " " scan.2))
  if rightNums.length < 3 then none
  else
    match rightNums, rightNums.getLast? with
    | units :: nav :: _, some invested =>
      match isin with
      | none => none
      | some isin =>
        let valuation :=
          match market_value with
          | some v => if v.beq 0 then pyRound (units.mul nav) 2 else v
          | none => pyRound (units.mul nav) 2
        let cat := classify_instrument scheme
        some { type_ := "Mutual Fund", fund_name := ⟨scheme.data.take 255⟩,
               isin_no := isin, folio_no := folio, units := units,
               nav := nav, invested_amount := invested,
               valuation := valuation, category := cat.1,
               sub_category := cat.2 }
    | _, _ => none

/-- The dict handed to the dedup engine by `process_cams_file`; the CAMS
pipeline never sets `source_file`. -/
def CamsRow.toDedup (r : CamsRow) : DHolding :=
  { isin_no := some r.isin_no, units := some r.units,
    valuation := some r.valuation, fund_name := some r.fund_name,
    type_ := some r.type_, source_file := none }

/-- State of the insertion loop of `process_cams_file`. -/
structure CamsLoopState where
  st : DedupState
  inserted : List CamsRow
  duplicates : List CamsRow

/-- One iteration of the insertion loop of `process_cams_file`. -/
def camsInsertStep (s : CamsLoopState) (h : CamsRow) : CamsLoopState :=
  if is_duplicate s.st h.toDedup then
    { s with duplicates := s.duplicates ++ [h] }
  else { s with inserted := s.inserted ++ [h], st := mark_seen s.st h.toDedup }

/-- The insertion loop of `process_cams_file`. -/
def camsInsertLoop (st : DedupState) (rows : List CamsRow) : CamsLoopState :=
  rows.foldl camsInsertStep ⟨st, [], []⟩

/-- `total_value` as accumulated by `parse_cams_two_column`: the sum of
the valuations of the assembled holdings. -/
def cams_parse_total (hs : List CamsRow) : PyFloat :=
  hs.foldl (fun acc h => acc.add h.valuation) 0

/-! ## Block extraction / password handling -/

/-- A PDF document as PyMuPDF presents it to the extractors:
`needsPass` is `doc.needs_pass` and `auth pw` the result of
`doc.authenticate(pw)` for a supplied password. -/
structure PdfDoc where
  needsPass : Bool
  auth : Option String → Bool

/-- The password handling of `extract_blocks_text` in `nsdl_parser.py`
(lines 11-19): the result of `doc.authenticate(password)` is discarded
and no error is ever raised by this function itself. -/
def nsdl_extract_result (d : PdfDoc) (password : Option String) :
    Except String Unit :=
  if d.needsPass then
    let _ := d.auth password
    Except.ok ()
  else Except.ok ()

/-- The password handling of `extract_blocks_text` in `cdsl_parser.py`
(lines 12-19, identical in `ecasparser.py`). -/
def cdsl_extract_result (d : PdfDoc) (password : Option String) :
    Except String Unit :=
  if d.needsPass then
    if strFalsy password then Except.error "PDF requires a password."
    else if !d.auth password then Except.error "Invalid PDF password."
    else Except.ok ()
  else Except.ok ()

/-- The password handling of `extract_cams_blocks` in `cams_parser.py`
(lines 13-19). -/
def cams_extract_result (d : PdfDoc) (password : Option String) :
    Except String Unit :=
  if d.needsPass then
    if strFalsy password || !d.auth password then
      Except.error "Invalid or missing PDF password"
    else Except.ok ()
  else Except.ok ()

/-- Whether an extraction outcome is a password error. -/
def isPasswordError : Except String Unit → Bool
  | .error _ => true
  | .ok _ => false

/-! ## Format verifier -/

/-- The issuer type declared by the caller. -/
inductive IssuerType where
  | nsdl
  | cdsl
  | cams
deriving DecidableEq

/-- Modelled from the spec: the marker-phrase sets of the Format
Verifier (spec §4.2); no marker-corroboration code exists in the
repository's source files, only the spec documents this component. -/
def issuer_markers : IssuerType → List String
  | .nsdl => ["National Securities Depository Limited"]
  | .cdsl => ["Central Depository Services", "CDSL"]
  | .cams => ["Computer Age Management Services", "CAMS"]

/-- Modelled from the spec: `verify(text, declared_issuer)` of the Format
Verifier — the declared type must be corroborated by at least one marker
phrase, otherwise processing fails with `FormatMismatch`. -/
def verify_format (text : String) (declared : IssuerType) :
    Except String Unit :=
  if (issuer_markers declared).any (fun m => containsSub text m) then
    Except.ok ()
  else Except.error "FormatMismatch"

/-! ## Helper lemmas -/

/-- A holding whose `source_file` is absent or empty is never reported as
a duplicate. -/
theorem is_duplicate_falsy_source (st : DedupState) (h : DHolding)
    (hf : strFalsy h.source_file = true) : is_duplicate st h = false := by
  cases hs : h.source_file with
  | none => cases hk : holding_key h <;> simp [is_duplicate, hk, hs]
  | some s =>
    rw [hs] at hf
    simp only [strFalsy, decide_eq_true_eq] at hf
    cases hk : holding_key h <;> simp [is_duplicate, hk, hs, hf]

/-- A holding whose `source_file` is absent or empty leaves the dedup map
unchanged. -/
theorem mark_seen_falsy_source (st : DedupState) (h : DHolding)
    (hf : strFalsy h.source_file = true) : mark_seen st h = st := by
  cases hs : h.source_file with
  | none => cases hk : holding_key h <;> simp [mark_seen, hk, hs]
  | some s =>
    rw [hs] at hf
    simp only [strFalsy, decide_eq_true_eq] at hf
    cases hk : holding_key h <;> simp [mark_seen, hk, hs, hf]

/-- NSDL rows reach the dedup engine without any `source_file` key. -/
theorem nsdl_toDedup_falsy (h : NsdlRow) :
    strFalsy h.toDedup.source_file = true := rfl

/-- CAMS rows reach the dedup engine without any `source_file` key. -/
theorem cams_toDedup_falsy (h : CamsRow) :
    strFalsy h.toDedup.source_file = true := rfl

/-- One NSDL insertion step never quarantines and never changes the dedup
map. -/
theorem nsdlInsertStep_preserves (allHs : List NsdlRow) (s : NsdlLoopState)
    (h : NsdlRow) :
    (nsdlInsertStep allHs s h).duplicates = s.duplicates ∧
    (nsdlInsertStep allHs s h).st = s.st := by
  have hdup : is_duplicate s.st h.toDedup = false :=
    is_duplicate_falsy_source _ _ (nsdl_toDedup_falsy h)
  have hms : ∀ st : DedupState, mark_seen st h.toDedup = st := fun st =>
    mark_seen_falsy_source _ _ (nsdl_toDedup_falsy h)
  unfold nsdlInsertStep
  rw [hdup]
  simp only [Bool.false_eq_true, if_false, hms]
  repeat' split
  all_goals exact ⟨rfl, rfl⟩

/-- Folding NSDL insertion steps never quarantines and never changes the
dedup map. -/
theorem nsdl_fold_preserves (allHs : List NsdlRow) :
    ∀ (rows : List NsdlRow) (s : NsdlLoopState),
      (rows.foldl (nsdlInsertStep allHs) s).duplicates = s.duplicates ∧
      (rows.foldl (nsdlInsertStep allHs) s).st = s.st
  | [], _ => ⟨rfl, rfl⟩
  | h :: rest, s => by
    have step := nsdlInsertStep_preserves allHs s h
    have ih := nsdl_fold_preserves allHs rest (nsdlInsertStep allHs s h)
    simp only [List.foldl_cons]
    exact ⟨ih.1.trans step.1, ih.2.trans step.2⟩

/-- One CAMS insertion step never quarantines and never changes the dedup
map. -/
theorem camsInsertStep_preserves (s : CamsLoopState) (h : CamsRow) :
    (camsInsertStep s h).duplicates = s.duplicates ∧
    (camsInsertStep s h).st = s.st := by
  have hdup : is_duplicate s.st h.toDedup = false :=
    is_duplicate_falsy_source _ _ (cams_toDedup_falsy h)
  have hms : mark_seen s.st h.toDedup = s.st :=
    mark_seen_falsy_source _ _ (cams_toDedup_falsy h)
  unfold camsInsertStep
  rw [hdup]
  simp [hms]

/-- Folding CAMS insertion steps never quarantines and never changes the
dedup map. -/
theorem cams_fold_preserves :
    ∀ (rows : List CamsRow) (s : CamsLoopState),
      (rows.foldl camsInsertStep s).duplicates = s.duplicates ∧
      (rows.foldl camsInsertStep s).st = s.st
  | [], _ => ⟨rfl, rfl⟩
  | h :: rest, s => by
    have step := camsInsertStep_preserves s h
    have ih := cams_fold_preserves rest (camsInsertStep s h)
    simp only [List.foldl_cons]
    exact ⟨ih.1.trans step.1, ih.2.trans step.2⟩

/-! ## Claims -/

/-- C1: for every holding presented to the dedup engine with a
well-formed signature and a non-empty source-file label, `is_duplicate`
returns true iff the signature already has a non-empty recorded set of
source files and that set does not contain the holding's source file; in
particular a same-file repeat is never a duplicate and the first
occurrence of a signature is never a duplicate. -/
theorem c1_is_duplicate_iff (st : DedupState) (h : DHolding) (k : DKey)
    (s : String) (hk : holding_key h = some k)
    (hs : h.source_file = some s) (hne : s ≠ "") :
    (is_duplicate st h = true ↔ (seenGet st k ≠ [] ∧ s ∉ seenGet st k)) ∧
    (s ∈ seenGet st k → is_duplicate st h = false) ∧
    (seenGet st k = [] → is_duplicate st h = false) := by
  have hd : is_duplicate st h
      = (!(seenGet st k).isEmpty && !(seenGet st k).contains s) := by
    simp [is_duplicate, hk, hs, hne]
  refine ⟨?_, ?_, ?_⟩
  · rw [hd]; simp
  · intro hmem; rw [hd]; simp [hmem]
  · intro hemp; rw [hd]; simp [hemp]

/-- C1 witness: the cross-file pair of sample holdings instantiates the
characterisation at a concrete input. -/
theorem c1_witness :
    is_duplicate (mark_seen [] sampleHoldingA) sampleHoldingB = true := by
  have h := c1_is_duplicate_iff (mark_seen [] sampleHoldingA) sampleHoldingB
    (DKey.isinKey "INE000A01010" (pyRound 10 6) (pyRound 100 2)) "B.pdf"
    (by decide) (by decide) (by decide)
  exact h.1.mpr (by decide)

/-- A sample CDSL mutual-fund row used for the cross-batch experiment. -/
def sampleCdslRow : CdslRow :=
  { type_ := "Mutual Fund", isin_no := "INF200K01158",
    fund_name := "SBI SMALL CAP FUND", units := 10, nav := 10,
    invested_amount := 90, valuation := 100, category := "Equity",
    sub_category := "Small Cap" }

/-- C2: refuted as the code stands.  `reset_dedup_context` exists but no
caller in the repository ever invokes it, so the module-level `_seen` map
persists across upload batches: a holding recorded in batch 1 (file
`A.pdf`) makes the identical holding of a separate later batch (file
`B.pdf`) a duplicate, although the claim says both must be accepted. -/
theorem c2_cross_batch_state_leaks :
    (process_cdsl_batch reset_dedup_context "A.pdf" [sampleCdslRow]).duplicates
      = [] ∧
    (process_cdsl_batch
      (process_cdsl_batch reset_dedup_context "A.pdf" [sampleCdslRow]).st
      "B.pdf" [sampleCdslRow]).duplicates = [sampleCdslRow] ∧
    (process_cdsl_batch
      (process_cdsl_batch reset_dedup_context "A.pdf" [sampleCdslRow]).st
      "B.pdf" [sampleCdslRow]).inserted = [] := by decide

/-- C3: a holding with an absent or falsy `source_file` is never reported
as a duplicate and `mark_seen` leaves the map unchanged; consequently the
NSDL and CAMS insertion loops — which never set `source_file` on parsed
holdings — quarantine nothing and leave the dedup state untouched. -/
theorem c3_no_source_never_quarantined :
    (∀ (st : DedupState) (h : DHolding), strFalsy h.source_file = true →
      is_duplicate st h = false ∧ mark_seen st h = st) ∧
    (∀ (st : DedupState) (rows : List NsdlRow),
      (nsdlInsertLoop st rows).duplicates = [] ∧
      (nsdlInsertLoop st rows).st = st) ∧
    (∀ (st : DedupState) (rows : List CamsRow),
      (camsInsertLoop st rows).duplicates = [] ∧
      (camsInsertLoop st rows).st = st) := by
  refine ⟨?_, ?_, ?_⟩
  · intro st h hf
    exact ⟨is_duplicate_falsy_source st h hf, mark_seen_falsy_source st h hf⟩
  · intro st rows
    exact nsdl_fold_preserves (nsdl_process_holdings rows)
      (nsdl_process_holdings rows) ⟨st, [], [], [], []⟩
  · intro st rows
    exact cams_fold_preserves rows ⟨st, [], []⟩

/-- C3 witness: an NSDL-shaped holding without `source_file`, already
recorded in the state under its own signature, is still not flagged, and
one concrete NSDL insertion loop quarantines nothing. -/
theorem c3_witness :
    (is_duplicate
        [(DKey.isinKey "X" (pyRound 10 6) (pyRound 100 2), ["A.pdf"])]
        { isin_no := some "X", units := some 10, valuation := some 100 }
        = false ∧
      mark_seen
        [(DKey.isinKey "X" (pyRound 10 6) (pyRound 100 2), ["A.pdf"])]
        { isin_no := some "X", units := some 10, valuation := some 100 }
        = [(DKey.isinKey "X" (pyRound 10 6) (pyRound 100 2), ["A.pdf"])]) ∧
    (nsdlInsertLoop []
        [{ type_ := "Mutual Fund", isin_no := "INF200K01158",
           fund_name := "X FUND", units := 10, nav := 10,
           invested_amount := 0, valuation := 100, category := "Equity",
           sub_category := "Small Cap" }]).duplicates = [] := by
  refine ⟨c3_no_source_never_quarantined.1 _ _ (by decide), ?_⟩
  exact (c3_no_source_never_quarantined.2.1 [] _).1

/-- The single "Mutual Fund" row of valuation 100 showing the
`total_value` slip of `parse_ecas_text`. -/
def ecasMfRow : CdslRow :=
  { type_ := "Mutual Fund", isin_no := "INF179K01158",
    fund_name := "HDFC FLEXI CAP FUND", units := 10, nav := 10,
    invested_amount := 90, valuation := 100, category := "Equity",
    sub_category := "Flexi Cap" }

/-- C4: refuted as the code stands.  `parse_ecas_text` computes
`total_value` as the sum over holdings whose `type` equals `"Equity"`,
but the parser only ever emits `"Mutual Fund"` and `"Shares"` rows, so
its total is always `0` and in particular differs from the sum of the
accepted holdings' valuations. -/
theorem c4_ecas_total_always_zero :
    (∀ hs : List CdslRow,
      (∀ h ∈ hs, h.type_ = "Mutual Fund" ∨ h.type_ = "Shares") →
      ecas_parse_total hs = 0) ∧
    (ecas_parse_total [ecasMfRow]).beq (cdsl_parse_total [ecasMfRow])
      = false := by
  constructor
  · intro hs hty
    have hfil : hs.filter (fun h => h.type_ = "Equity") = [] := by
      rw [List.filter_eq_nil_iff]
      intro h hmem
      rcases hty h hmem with ht | ht <;> simp [ht]
    unfold ecas_parse_total
    rw [hfil]
    rfl
  · decide

/-- C4 witness: the concrete one-row document instantiates the general
zero-total statement. -/
theorem c4_witness : ecas_parse_total [ecasMfRow] = 0 :=
  c4_ecas_total_always_zero.1 [ecasMfRow] (by decide)

/-- The parsed NSDL row whose ISIN is the extraction artifact
`INFRASTRUCTURE`. -/
def infRow : NsdlRow :=
  { type_ := "Mutual Fund", isin_no := "INFRASTRUCTURE",
    fund_name := "X FUND", units := 100, nav := pyDec 105 1,
    invested_amount := 0, valuation := 1000, category := "Equity",
    sub_category := "Flexi Cap" }

/-- C5: refuted as the code stands.  The `valid_holdings` filter of
`parse_nsdl_ecas_text` tests `isin == 'INFRASTRUCTURE' and len(isin) < 10`,
which is unsatisfiable (`"INFRASTRUCTURE"` has length 14), so no row is
ever removed by it; a parsed row with ISIN `INFRASTRUCTURE` survives into
the holdings list that `process_nsdl_file` returns (it is only skipped at
database insertion). -/
theorem c5_infrastructure_row_retained :
    (∀ r : NsdlRow, nsdlRowFilterCond r = false) ∧
    nsdl_process_holdings [infRow] = [infRow] ∧
    containsSub (pyUpper infRow.isin_no) "INFRASTRUCTURE" = true := by
  refine ⟨?_, by decide, by decide⟩
  intro r
  unfold nsdlRowFilterCond
  by_cases h : pyStrip r.isin_no = "INFRASTRUCTURE"
  · rw [h]; decide
  · simp [h]

/-- C6 counterexample: an encrypted document together with a password the
document rejects — `extract_blocks_text` of `nsdl_parser.py` discards the
`authenticate` result and reports success instead of an invalid-password
error. -/
theorem c6_counterexample :
    nsdl_extract_result ⟨true, fun _ => false⟩ (some "wrongpw")
      = Except.ok () := rfl

/-- C6 (amended): the CDSL and CAMS block extractors raise a password
error exactly when the document is encrypted and the password is missing
or rejected; the NSDL extractor ignores the authentication result and
never raises a password error of its own. -/
theorem c6_password_errors :
    (∀ (d : PdfDoc) (pw : Option String),
      isPasswordError (cdsl_extract_result d pw)
        = (d.needsPass && (strFalsy pw || !d.auth pw))) ∧
    (∀ (d : PdfDoc) (pw : Option String),
      isPasswordError (cams_extract_result d pw)
        = (d.needsPass && (strFalsy pw || !d.auth pw))) ∧
    (∀ (d : PdfDoc) (pw : Option String),
      nsdl_extract_result d pw = Except.ok ()) := by
  refine ⟨?_, ?_, ?_⟩
  · intro d pw
    cases hnp : d.needsPass <;> cases hf : strFalsy pw <;>
      cases ha : d.auth pw <;>
      simp [cdsl_extract_result, isPasswordError, hnp, hf, ha]
  · intro d pw
    cases hnp : d.needsPass <;> cases hf : strFalsy pw <;>
      cases ha : d.auth pw <;>
      simp [cams_extract_result, isPasswordError, hnp, hf, ha]
  · intro d pw
    cases hnp : d.needsPass <;> simp [nsdl_extract_result, hnp]

/-- C7: `spec-modelled` — for every document text containing none of the
declared issuer's marker phrases, verification fails with
`FormatMismatch`. -/
theorem c7_format_mismatch (text : String) (declared : IssuerType)
    (hnone : (issuer_markers declared).all (fun m => !containsSub text m)
      = true) :
    verify_format text declared = Except.error "FormatMismatch" := by
  have hany : (issuer_markers declared).any (fun m => containsSub text m)
      = false := by
    rw [List.any_eq_false]
    intro m hm
    have := List.all_eq_true.mp hnone m hm
    simpa using this
  simp [verify_format, hany]

/-- C7 witness: a text with no NSDL marker fails verification. -/
theorem c7_witness :
    verify_format "hello world" IssuerType.nsdl
      = Except.error "FormatMismatch" :=
  c7_format_mismatch "hello world" IssuerType.nsdl (by decide)

/-- C8 counterexample: a CDSL equity row parsed as
`units=100, nav=10.5, valuation=0` — the nav/value swap runs before the
backfill, so the output valuation is `10.5` (the nav), not
`units × nav = 1050.00` as the claim requires. -/
theorem c8_counterexample :
    (cdsl_equity_fix 100 (pyDec 105 1) 0).2 = pyDec 105 1 ∧
    ((cdsl_equity_fix 100 (pyDec 105 1) 0).2).beq
      (pyRound (PyFloat.mul 100 (pyDec 105 1)) 2) = false := by decide

/-- C8 (amended): NSDL rows with zero parsed valuation and positive units
and nav are backfilled to `round(units × nav, 2)` and rows with non-zero
valuation are left unchanged; in the CDSL equity path the `nav > value`
swap runs first, so a zero parsed valuation with positive nav becomes
that nav instead of `units × nav`. -/
theorem c8_backfill_amended :
    (∀ r : NsdlRow, r.valuation.beq 0 = true → PyFloat.lt 0 r.units = true →
      PyFloat.lt 0 r.nav = true →
      (nsdlBackfill r).valuation = pyRound (r.units.mul r.nav) 2) ∧
    (∀ r : NsdlRow, r.valuation.beq 0 = false → nsdlBackfill r = r) ∧
    (∀ u n : PyFloat, PyFloat.lt 0 u = true → PyFloat.lt 0 n = true →
      (cdsl_equity_fix u n 0).2 = n) := by
  refine ⟨?_, ?_, ?_⟩
  · intro r h1 h2 h3
    simp [nsdlBackfill, h1, h2, h3]
  · intro r h1
    simp [nsdlBackfill, h1]
  · intro u n hu hn
    have hne : n.beq 0 = false := by
      simp only [PyFloat.lt, decide_eq_true_eq] at hn
      simp only [PyFloat.beq, decide_eq_false_iff_not]
      intro hc
      omega
    simp [cdsl_equity_fix, hn, hne]

/-- An NSDL equity row with no printed value: `units=50, nav=120`. -/
def nsdlZeroRow : NsdlRow :=
  { type_ := "Shares", isin_no := "INE123A01016", fund_name := "X LTD",
    units := 50, nav := 120, invested_amount := 0, valuation := 0,
    category := "Shares", sub_category := "Shares" }

/-- C8 witness: the backfill and the CDSL swap behaviour at concrete
inputs. -/
theorem c8_witness :
    (nsdlBackfill nsdlZeroRow).valuation
      = pyRound (nsdlZeroRow.units.mul nsdlZeroRow.nav) 2 ∧
    (cdsl_equity_fix 100 (pyDec 105 1) 0).2 = pyDec 105 1 :=
  ⟨c8_backfill_amended.1 nsdlZeroRow (by decide) (by decide) (by decide),
   c8_backfill_amended.2.2 100 (pyDec 105 1) (by decide) (by decide)⟩

/-- Inversion of `parse_cams_pair`: a produced holding's valuation is the
printed market value if that is truthy, else `round(units × nav, 2)`. -/
theorem parse_cams_pair_valuation (folio : String) (lines : List CamsLine)
    (nums : List PyFloat) (isin : Option String) (h : CamsRow)
    (hp : parse_cams_pair folio lines nums isin = some h) :
    h.valuation = (match cams_market_value lines with
      | some v => if v.beq 0 = true then pyRound (h.units.mul h.nav) 2 else v
      | none => pyRound (h.units.mul h.nav) 2) := by
  unfold parse_cams_pair at hp
  split at hp
  · exact Option.noConfusion hp
  · split at hp
    · split at hp
      · exact Option.noConfusion hp
      · cases hp
        simp [cams_market_value]
    · exact Option.noConfusion hp

/-- The left block of the CAMS counterexample: a printed market value of
`0.00` followed by the scheme name. -/
def camsLeftZeroMv : List CamsLine :=
  [CamsLine.num 0, CamsLine.txt "HDFC Flexi Cap Fund"]

/-- The right-block decimal tokens of the CAMS counterexample:
units `100.000`, nav `105.00`, cost `10000.00`. -/
def camsRightNums : List PyFloat := [100, pyDec 10500 2, pyDec 1000000 2]

/-- C9 counterexample: a left block whose printed market value is `0.00`
is present, yet the assembled holding's valuation is
`round(units × nav, 2) = 10500.00`, not the printed value — the printed
market value does not always win. -/
theorem c9_counterexample :
    cams_market_value camsLeftZeroMv = some 0 ∧
    (parse_cams_pair "123/4567" camsLeftZeroMv camsRightNums
        (some "INF179K01158")).map (fun h => h.valuation)
      = some (pyRound (PyFloat.mul 100 (pyDec 10500 2)) 2) ∧
    (pyRound (PyFloat.mul 100 (pyDec 10500 2)) 2).beq 0 = false := by decide

/-- C9 (amended): the holding's valuation equals the left block's printed
market value whenever a *non-zero* market value is present, and equals
`round(units × nav, 2)` when the market value is absent or zero (Python
truthiness of `market_value if market_value else …`). -/
theorem c9_market_value_amended :
    (∀ (folio : String) (lines : List CamsLine) (nums : List PyFloat)
        (isin : Option String) (h : CamsRow) (v : PyFloat),
      parse_cams_pair folio lines nums isin = some h →
      cams_market_value lines = some v → v.beq 0 = false →
      h.valuation = v) ∧
    (∀ (folio : String) (lines : List CamsLine) (nums : List PyFloat)
        (isin : Option String) (h : CamsRow),
      parse_cams_pair folio lines nums isin = some h →
      (cams_market_value lines = none ∨
        (∃ v, cams_market_value lines = some v ∧ v.beq 0 = true)) →
      h.valuation = pyRound (h.units.mul h.nav) 2) := by
  constructor
  · intro folio lines nums isin h v hp hmv hne
    have hval := parse_cams_pair_valuation folio lines nums isin h hp
    rw [hmv] at hval
    simpa [hne] using hval
  · intro folio lines nums isin h hp hmv
    have hval := parse_cams_pair_valuation folio lines nums isin h hp
    rcases hmv with hnone | ⟨v, hv, hz⟩
    · rwa [hnone] at hval
    · rw [hv] at hval
      simpa [hz] using hval

/-- The left block of the C9 witness: printed market value `10500.00`. -/
def camsLeftMv : List CamsLine :=
  [CamsLine.num (pyDec 1050000 2), CamsLine.txt "HDFC Flexi Cap Fund"]

/-- C9 witness: with a non-zero printed market value the assembled
holding carries exactly that value. -/
theorem c9_witness :
    ∃ h, parse_cams_pair "123/4567" camsLeftMv camsRightNums
        (some "INF179K01158") = some h ∧ h.valuation = pyDec 1050000 2 := by
  refine ⟨_, rfl, ?_⟩
  exact c9_market_value_amended.1 "123/4567" camsLeftMv camsRightNums
    (some "INF179K01158") _ (pyDec 1050000 2) rfl (by decide) (by decide)

/-- The rule chain yields the `("Unclassified", "Unknown")` sentinel
exactly when no guard of the ordered chain matches. -/
theorem classifyChain_unclassified_iff (n : String) :
    classifyChain n = ("Unclassified", "Unknown") ↔
      someRuleMatchesChain n = false := by
  unfold classifyChain someRuleMatchesChain
  by_cases h1 : (anyKeyIn n ["retirement", "pension"]) = true
  case pos =>
    rw [if_pos h1]
    simp [h1]
  case neg =>
  have h1f : (anyKeyIn n ["retirement", "pension"]) = false := by simpa using h1
  rw [if_neg h1]
  simp only [h1f, Bool.false_or]
  by_cases h2 : (anyKeyIn n ["children", "child plan", "education"]) = true
  case pos =>
    rw [if_pos h2]
    simp [h2]
  case neg =>
  have h2f : (anyKeyIn n ["children", "child plan", "education"]) = false := by simpa using h2
  rw [if_neg h2]
  simp only [h2f, Bool.false_or]
  by_cases h3 : (containsSub n "gold") = true
  case pos =>
    rw [if_pos h3]
    simp [h3]
  case neg =>
  have h3f : (containsSub n "gold") = false := by simpa using h3
  rw [if_neg h3]
  simp only [h3f, Bool.false_or]
  by_cases h4 : (containsSub n "silver") = true
  case pos =>
    rw [if_pos h4]
    simp [h4]
  case neg =>
  have h4f : (containsSub n "silver") = false := by simpa using h4
  rw [if_neg h4]
  simp only [h4f, Bool.false_or]
  by_cases h5 : (anyKeyIn n ["reit", "invit", "real estate", "realty"]) = true
  case pos =>
    rw [if_pos h5]
    simp [h5]
  case neg =>
  have h5f : (anyKeyIn n ["reit", "invit", "real estate", "realty"]) = false := by simpa using h5
  rw [if_neg h5]
  simp only [h5f, Bool.false_or]
  by_cases h6 : (containsSub n "commodity") = true
  case pos =>
    rw [if_pos h6]
    simp [h6]
  case neg =>
  have h6f : (containsSub n "commodity") = false := by simpa using h6
  rw [if_neg h6]
  simp only [h6f, Bool.false_or]
  rcases hmhyb : firstPattern n hybridPatterns with _ | hyb_s
  case some =>
    simp [hmhyb]
  case none =>
  simp only [hmhyb, Option.isSome_none, Bool.false_or]
  by_cases h8 : (anyKeyIn n ["elss", "tax saver", "tax savings", "80c"]) = true
  case pos =>
    rw [if_pos h8]
    simp [h8]
  case neg =>
  have h8f : (anyKeyIn n ["elss", "tax saver", "tax savings", "80c"]) = false := by simpa using h8
  rw [if_neg h8]
  simp only [h8f, Bool.false_or]
  by_cases h9 : (containsSub n "small cap") = true
  case pos =>
    rw [if_pos h9]
    simp [h9]
  case neg =>
  have h9f : (containsSub n "small cap") = false := by simpa using h9
  rw [if_neg h9]
  simp only [h9f, Bool.false_or]
  by_cases h10 : (containsSub n "mid cap") = true
  case pos =>
    rw [if_pos h10]
    simp [h10]
  case neg =>
  have h10f : (containsSub n "mid cap") = false := by simpa using h10
  rw [if_neg h10]
  simp only [h10f, Bool.false_or]
  by_cases h11 : (containsSub n "large cap" || containsSub n "bluechip") = true
  case pos =>
    rw [if_pos h11]
    simp [h11]
  case neg =>
  have h11f : (containsSub n "large cap" || containsSub n "bluechip") = false := by simpa using h11
  rw [if_neg h11]
  simp only [h11f, Bool.false_or]
  by_cases h12 : (containsSub n "large & mid cap" || containsSub n "large and mid") = true
  case pos =>
    rw [if_pos h12]
    simp [h12]
  case neg =>
  have h12f : (containsSub n "large & mid cap" || containsSub n "large and mid") = false := by simpa using h12
  rw [if_neg h12]
  simp only [h12f, Bool.false_or]
  by_cases h13 : (anyKeyIn n ["flexi cap", "flexicap"]) = true
  case pos =>
    rw [if_pos h13]
    simp [h13]
  case neg =>
  have h13f : (anyKeyIn n ["flexi cap", "flexicap"]) = false := by simpa using h13
  rw [if_neg h13]
  simp only [h13f, Bool.false_or]
  by_cases h14 : (anyKeyIn n ["multi cap", "multicap"]) = true
  case pos =>
    rw [if_pos h14]
    simp [h14]
  case neg =>
  have h14f : (anyKeyIn n ["multi cap", "multicap"]) = false := by simpa using h14
  rw [if_neg h14]
  simp only [h14f, Bool.false_or]
  by_cases h15 : (containsSub n "focused") = true
  case pos =>
    rw [if_pos h15]
    simp [h15]
  case neg =>
  have h15f : (containsSub n "focused") = false := by simpa using h15
  rw [if_neg h15]
  simp only [h15f, Bool.false_or]
  by_cases h16 : (containsSub n "contra") = true
  case pos =>
    rw [if_pos h16]
    simp [h16]
  case neg =>
  have h16f : (containsSub n "contra") = false := by simpa using h16
  rw [if_neg h16]
  simp only [h16f, Bool.false_or]
  by_cases h17 : (containsSub n "value") = true
  case pos =>
    rw [if_pos h17]
    simp [h17]
  case neg =>
  have h17f : (containsSub n "value") = false := by simpa using h17
  rw [if_neg h17]
  simp only [h17f, Bool.false_or]
  by_cases h18 : (containsSub n "dividend yield") = true
  case pos =>
    rw [if_pos h18]
    simp [h18]
  case neg =>
  have h18f : (containsSub n "dividend yield") = false := by simpa using h18
  rw [if_neg h18]
  simp only [h18f, Bool.false_or]
  rcases hmsec : firstSector n sectoralKeywords with _ | sec_s
  case some =>
    simp [hmsec]
  case none =>
  simp only [hmsec, Option.isSome_none, Bool.false_or]
  by_cases h20 : (anyKeyIn n ["index", "nifty", "sensex", "bse"]) = true
  case pos =>
    rw [if_pos h20]
    simp [h20]
  case neg =>
  have h20f : (anyKeyIn n ["index", "nifty", "sensex", "bse"]) = false := by simpa using h20
  rw [if_neg h20]
  simp only [h20f, Bool.false_or]
  by_cases h21 : (containsSub n "equity") = true
  case pos =>
    rw [if_pos h21]
    simp [h21]
  case neg =>
  have h21f : (containsSub n "equity") = false := by simpa using h21
  rw [if_neg h21]
  simp only [h21f, Bool.false_or]
  rcases hmdeb : firstPattern n debtPatterns with _ | deb_s
  case some =>
    simp [hmdeb]
  case none =>
  simp only [hmdeb, Option.isSome_none, Bool.false_or]
  by_cases h23 : (anyKeyIn n ["fund of funds", "fof"]) = true
  case pos =>
    rw [if_pos h23]
    split_ifs <;> simp [h23]
  case neg =>
  have h23f : (anyKeyIn n ["fund of funds", "fof"]) = false := by simpa using h23
  rw [if_neg h23]
  simp only [h23f, Bool.false_or]
  rcases hmintl : firstPattern n internationalPatterns with _ | intl_s
  case some =>
    simp [hmintl]
  case none =>
  simp only [hmintl, Option.isSome_none, Bool.false_or]
  by_cases h25 : ((pyWords n).any (fun w => equityIndicators.contains w)) = true
  case pos =>
    rw [if_pos h25]
    simp only [h25, Bool.true_or, Bool.or_true]
    simp
  case neg =>
  have h25f : ((pyWords n).any (fun w => equityIndicators.contains w)) = false := by simpa using h25
  rw [if_neg h25]
  simp only [h25f, Bool.false_or]
  by_cases h26 : ((pyWords n).any (fun w => debtIndicators.contains w)) = true
  case pos =>
    rw [if_pos h26]
    simp only [h26, Bool.true_or, Bool.or_true]
    simp
  case neg =>
  have h26f : ((pyWords n).any (fun w => debtIndicators.contains w)) = false := by simpa using h26
  rw [if_neg h26]
  simp only [h26f, Bool.false_or]
  by_cases h27 : (anyKeyIn n ["equity shares", "share", "stock", "etf"]) = true
  case pos =>
    rw [if_pos h27]
    simp [h27]
  case neg =>
  have h27f : (anyKeyIn n ["equity shares", "share", "stock", "etf"]) = false := by simpa using h27
  rw [if_neg h27]
  simp only [h27f, Bool.false_or]

/-- C10: for every non-empty name the classifier returns a pair (it is
a total Lean function), and it returns `("Unclassified", "Unknown")`
exactly when no rule guard of the ordered chain matches the name. -/
theorem c10_classifier_total (name : String) (hne : name ≠ "") :
    classify_instrument name = ("Unclassified", "Unknown") ↔
      someRuleMatches name = false := by
  unfold classify_instrument someRuleMatches
  rw [if_neg hne]
  exact classifyChain_unclassified_iff (pyStrip (pyLower name))

/-- C10 witness: a name matching no rule is classified as the
sentinel pair. -/
theorem c10_witness :
    classify_instrument "zzz qqq" = ("Unclassified", "Unknown") :=
  (c10_classifier_total "zzz qqq" (by decide)).mpr (by decide)
